import Mathlib

/-!
Shallow embedding of the bond-return and USD/INR hedging engine of
`src/app.py` (PyStatIQ-Lab/Bonds-Return-Hedging).

The script is a straight-line sequence of arithmetic assignments over the
dashboard inputs; we embed each assignment as a function of the values it
reads, with Python floats modelled as exact rationals.  Python raises
ZeroDivisionError on float division by zero, so every division whose
divisor can be zero is totalized with `Option` (`none` = the raise).
-/

namespace BondsHedging

/-- Constant from app.py line 8: one futures lot is 1000 USD notional. -/
def USDINR_LOT_SIZE : ℚ := 1000

/-- Constant from app.py line 9. -/
def DEFAULT_USDINR_RATE : ℚ := 85

/-- Constant from app.py line 10: default margin per lot in INR. -/
def DEFAULT_MARGIN_PER_LOT : ℚ := 2150

/-- Constant from app.py line 11: default annual hedging cost as a percent. -/
def DEFAULT_HEDGING_COST_PCT : ℚ := 1 / 2

/-- The four choices of the compounding-frequency selectbox (app.py line 122). -/
inductive Compounding
  | annually
  | semiAnnually
  | quarterly
  | monthly
deriving DecidableEq

/-- Mapping `compounding_freq_map` of app.py lines 156-161. -/
def compounding_freq_map : Compounding → ℕ
  | .annually => 1
  | .semiAnnually => 2
  | .quarterly => 4
  | .monthly => 12

/-- Lines 162-167 of app.py: `interest_earned` is simple interest when the
compounding choice is annual, and compound interest at `n` periods per year
otherwise.  The tenure slider only produces whole years (1 to 10), so the
exponent `n * tenure_years` is a natural number. -/
def interest_earned (investment_inr yield_percent : ℚ) (tenure_years : ℕ)
    (compounding : Compounding) : ℚ :=
  let n := compounding_freq_map compounding
  if compounding = .annually then
    investment_inr * (yield_percent / 100) * tenure_years
  else
    investment_inr * (1 + (yield_percent / 100) / n) ^ (n * tenure_years) - investment_inr

/-- Line 169 of app.py: maturity value = principal plus interest. -/
def total_return_inr (investment_inr yield_percent : ℚ) (tenure_years : ℕ)
    (compounding : Compounding) : ℚ :=
  investment_inr + interest_earned investment_inr yield_percent tenure_years compounding

/-- Line 172 of app.py: `investment_usd = investment_inr / usdinr_rate`.
There is no rate validation in the source; the only failure mode is Python's
ZeroDivisionError when the rate is exactly zero, modelled as `none`. -/
def investment_usd (investment_inr usdinr_rate : ℚ) : Option ℚ :=
  if usdinr_rate = 0 then none else some (investment_inr / usdinr_rate)

/-- Line 175 of app.py: `num_lots = math.ceil(investment_usd / USDINR_LOT_SIZE)`. -/
def num_lots (investment_usd : ℚ) : ℤ :=
  ⌈investment_usd / USDINR_LOT_SIZE⌉

/-- Line 176 of app.py: `total_margin_inr = num_lots * margin_per_lot`. -/
def total_margin_inr (investment_usd margin_per_lot : ℚ) : ℚ :=
  (num_lots investment_usd : ℚ) * margin_per_lot

/-- Line 177 of app.py: annualized hedging cost on the USD notional, converted
back to INR at the inception spot rate. -/
def total_hedging_cost (investment_usd hedging_cost_pct : ℚ) (tenure_years : ℕ)
    (usdinr_rate : ℚ) : ℚ :=
  investment_usd * (hedging_cost_pct / 100) * tenure_years * usdinr_rate

/-- Line 178 of app.py: net return with the hedge in place. -/
def actual_return_with_hedging (total_return_inr total_margin_inr total_hedging_cost : ℚ) : ℚ :=
  total_return_inr - total_margin_inr - total_hedging_cost

/-- Row returned by `calculate_scenario` (app.py lines 191-197).  The two USD
fields divide by the scenario rate, which the source does not guard, so they
are `Option`: `none` models Python's ZeroDivisionError. -/
structure ScenarioResult where
  unhedged_inr : ℚ
  hedged_inr : ℚ
  unhedged_usd : Option ℚ
  hedged_usd : Option ℚ
  rate : ℚ
deriving DecidableEq

/-- Lines 186-197 of app.py: `calculate_scenario(inr_appreciation_pct)`.  The
script's globals (`usdinr_rate`, `investment_usd`, `interest_earned`,
`actual_return_with_hedging`) become parameters. -/
def calculate_scenario (usdinr_rate investment_usd interest_earned
    actual_return_with_hedging inr_appreciation_pct : ℚ) : ScenarioResult :=
  let new_rate := usdinr_rate * (1 - inr_appreciation_pct / 100)
  let unhedged_return_inr := investment_usd * new_rate + interest_earned
  { unhedged_inr := unhedged_return_inr
    hedged_inr := actual_return_with_hedging
    unhedged_usd := if new_rate = 0 then none else some (unhedged_return_inr / new_rate)
    hedged_usd := if new_rate = 0 then none else some (actual_return_with_hedging / new_rate)
    rate := new_rate }

/-- Line 199 of app.py: the swept INR appreciation/depreciation percentages. -/
def scenarios : List ℚ := [-10, -5, 0, 5, 10]

/-- Line 200 of app.py: one `ScenarioResult` per swept percentage, in order. -/
def scenario_data (usdinr_rate investment_usd interest_earned
    actual_return_with_hedging : ℚ) : List ScenarioResult :=
  scenarios.map
    (calculate_scenario usdinr_rate investment_usd interest_earned actual_return_with_hedging)

/-- Output record of the HedgeSizer contract of spec section 4.3. -/
structure HedgeSize where
  lotsRequired : ℤ
  coveredUsd : ℚ
  uncoveredUsd : ℚ
deriving DecidableEq

/-- Modelled from the spec: `HedgeSizer.size` with the `ceiling` rounding
policy and 100 percent coverage (spec section 4.3).  `src/app.py` only
contains the fixed-lot-size instance `num_lots` and never computes
`coveredUsd` or `uncoveredUsd`; the general lot-size parameter and the two
coverage fields are taken from the spec's words:
`rawLots = coveredNotional / lotSizeUsd`, ceiling rounding,
`coveredUsd = lotsRequired * lotSizeUsd`,
`uncoveredUsd = max(0, usdNotional - coveredUsd)`. -/
def hedgeSizer_size_ceiling (usd_notional lot_size_usd : ℚ) : HedgeSize :=
  let lots := ⌈usd_notional / lot_size_usd⌉
  { lotsRequired := lots
    coveredUsd := (lots : ℚ) * lot_size_usd
    uncoveredUsd := max 0 (usd_notional - (lots : ℚ) * lot_size_usd) }

/-! ## Theorems about the engine -/

/-- C7: for every calculation, the total margin equals the number of lots
times the margin per lot, with no other term. -/
theorem margin_is_lots_times_per_lot (usd margin_per_lot : ℚ) :
    total_margin_inr usd margin_per_lot = (num_lots usd : ℚ) * margin_per_lot := rfl

/-- C2 (counterexample): with baseline spot rate 85 and shift 10, the rate the
scenario evaluator uses is 85 times (1 minus 10/100) = 76.5, not
85 times (1 plus 10/100) = 93.5: the claimed depreciation convention is not
the code's convention. -/
theorem implied_rate_depreciation_cex :
    (calculate_scenario 85 0 0 0 10).rate ≠ 85 * (1 + 10 / 100) := by
  norm_num [calculate_scenario]

/-- C2 (amended): the scenario evaluator's implied spot rate is
`originalSpotRate * (1 - inrAppreciationPercent/100)`: a positive shift means
INR appreciation, so fewer INR per USD. -/
theorem implied_rate_appreciation (usdinr_rate u i a pct : ℚ) :
    (calculate_scenario usdinr_rate u i a pct).rate
      = usdinr_rate * (1 - pct / 100) := rfl

/-- C1: the hedged INR return reported by the scenario evaluator equals the
baseline net return with hedge for every spot-shift percentage, and hence is
the same for every row of a sweep over a fixed baseline. -/
theorem hedged_inr_shift_invariant (usdinr_rate u i tr m c pct : ℚ) :
    (calculate_scenario usdinr_rate u i (actual_return_with_hedging tr m c) pct).hedged_inr
      = actual_return_with_hedging tr m c ∧
    ∀ r ∈ scenario_data usdinr_rate u i (actual_return_with_hedging tr m c),
      r.hedged_inr = actual_return_with_hedging tr m c := by
  refine ⟨rfl, ?_⟩
  intro r hr
  simp only [scenario_data, List.mem_map] at hr
  obtain ⟨s, -, rfl⟩ := hr
  rfl

/-- C1 witness: the sweep row at shift 0 of a concrete baseline carries the
baseline hedged return. -/
theorem hedged_inr_shift_invariant_witness :
    (calculate_scenario 85 100 5 (actual_return_with_hedging 7 1 2) 0).hedged_inr
      = actual_return_with_hedging 7 1 2 :=
  (hedged_inr_shift_invariant 85 100 5 7 1 2 0).2 _
    (by simp [scenario_data, scenarios])

/-- C3: with positive principal, positive tenure and non-negative yield, the
annual branch is simple interest, every non-annual branch is compound interest
at `n` periods per year, and in both cases the interest earned is the maturity
value minus the principal. -/
theorem maturity_value_formulas (investment_inr yield_percent : ℚ) (tenure_years : ℕ)
    (c : Compounding) (hp : 0 < investment_inr) (ht : 0 < tenure_years)
    (hy : 0 ≤ yield_percent) :
    total_return_inr investment_inr yield_percent tenure_years .annually
      = investment_inr * (1 + yield_percent / 100 * tenure_years) ∧
    (c ≠ .annually →
      total_return_inr investment_inr yield_percent tenure_years c
        = investment_inr * (1 + (yield_percent / 100) / compounding_freq_map c)
            ^ (compounding_freq_map c * tenure_years)) ∧
    interest_earned investment_inr yield_percent tenure_years c
      = total_return_inr investment_inr yield_percent tenure_years c - investment_inr := by
  refine ⟨?_, ?_, ?_⟩
  · simp [total_return_inr, interest_earned]
    ring
  · intro hc
    simp [total_return_inr, interest_earned, hc]
  · simp only [total_return_inr]
    ring

/-- C3 witness: at principal 85000, yield 10, tenure 1 year, quarterly
compounding, the interest earned equals the maturity value minus principal. -/
theorem maturity_value_formulas_witness :
    interest_earned 85000 10 1 .quarterly
      = total_return_inr 85000 10 1 .quarterly - 85000 :=
  (maturity_value_formulas 85000 10 1 .quarterly (by norm_num) (by norm_num)
    (by norm_num)).2.2

/-- C9: under non-negative principal and yield (and any whole-year tenure,
which is automatically non-negative), the maturity value is at least the
principal, under either compounding convention. -/
theorem maturity_ge_principal (investment_inr yield_percent : ℚ) (tenure_years : ℕ)
    (c : Compounding) (hp : 0 ≤ investment_inr) (hy : 0 ≤ yield_percent) :
    investment_inr ≤ total_return_inr investment_inr yield_percent tenure_years c := by
  unfold total_return_inr interest_earned
  by_cases hc : c = .annually
  · have h1 : 0 ≤ investment_inr * (yield_percent / 100) * (tenure_years : ℚ) :=
      mul_nonneg (mul_nonneg hp (div_nonneg hy (by norm_num))) (Nat.cast_nonneg _)
    simp [hc]
    linarith
  · have hb : (1 : ℚ) ≤ 1 + (yield_percent / 100) / (compounding_freq_map c : ℚ) := by
      have : (0 : ℚ) ≤ (yield_percent / 100) / (compounding_freq_map c : ℚ) :=
        div_nonneg (div_nonneg hy (by norm_num)) (Nat.cast_nonneg _)
      linarith
    have hpow : (1 : ℚ) ≤ (1 + (yield_percent / 100) / (compounding_freq_map c : ℚ))
        ^ (compounding_freq_map c * tenure_years) := one_le_pow₀ hb
    have := le_mul_of_one_le_right hp hpow
    simp only [if_neg hc]
    linarith

/-- C9 witness: a concrete instance at principal 85000, yield 10, tenure 2,
monthly compounding. -/
theorem maturity_ge_principal_witness :
    (85000 : ℚ) ≤ total_return_inr 85000 10 2 .monthly :=
  maturity_ge_principal 85000 10 2 .monthly (by norm_num) (by norm_num)

/-- C8: at shift percentage 0 the scenario evaluator's rate is the original
spot rate, and (for a nonzero spot rate, which makes the baseline USD
conversion meaningful) the unhedged INR return is the baseline maturity value:
principal plus interest, with no forex effect. -/
theorem zero_shift_no_forex (investment_inr yield_percent usdinr_rate a : ℚ)
    (tenure_years : ℕ) (c : Compounding) (h : usdinr_rate ≠ 0) :
    (calculate_scenario usdinr_rate (investment_inr / usdinr_rate)
        (interest_earned investment_inr yield_percent tenure_years c) a 0).rate
      = usdinr_rate ∧
    (calculate_scenario usdinr_rate (investment_inr / usdinr_rate)
        (interest_earned investment_inr yield_percent tenure_years c) a 0).unhedged_inr
      = total_return_inr investment_inr yield_percent tenure_years c := by
  constructor
  · simp [calculate_scenario]
  · simp only [calculate_scenario, total_return_inr]
    norm_num
    rw [div_mul_cancel₀ _ h]

/-- C8 witness: at spot 85, principal 1000000, yield 6.5, tenure 3 years,
annual compounding, the zero-shift scenario reproduces the baseline rate. -/
theorem zero_shift_no_forex_witness :
    (calculate_scenario 85 (1000000 / 85)
        (interest_earned 1000000 (13 / 2) 3 .annually) 0 0).rate = 85 :=
  (zero_shift_no_forex 1000000 (13 / 2) 85 0 3 .annually (by norm_num)).1

/-- C10: the scenario evaluator's USD outputs are a division by the implied
rate with no guard: at shift 100 the implied rate is 0 and both USD fields
are the error branch (`none`), for any baseline; whenever the implied rate is
nonzero both fields are defined and equal the INR amounts divided by the
rate. -/
theorem scenario_usd_division (spot u i a pct : ℚ) :
    ((calculate_scenario spot u i a 100).unhedged_usd = none ∧
     (calculate_scenario spot u i a 100).hedged_usd = none) ∧
    ((calculate_scenario spot u i a pct).rate ≠ 0 →
      (calculate_scenario spot u i a pct).unhedged_usd
        = some ((calculate_scenario spot u i a pct).unhedged_inr
            / (calculate_scenario spot u i a pct).rate) ∧
      (calculate_scenario spot u i a pct).hedged_usd
        = some (a / (calculate_scenario spot u i a pct).rate)) := by
  constructor
  · norm_num [calculate_scenario]
  · intro h
    simp only [calculate_scenario] at h ⊢
    simp [h]

/-- C10 witness: at spot 85 and shift 0 the implied rate is nonzero and the
USD outputs are defined. -/
theorem scenario_usd_division_witness :
    (calculate_scenario 85 100 5 7 0).unhedged_usd
      = some ((calculate_scenario 85 100 5 7 0).unhedged_inr
          / (calculate_scenario 85 100 5 7 0).rate) ∧
    (calculate_scenario 85 100 5 7 0).hedged_usd
      = some (7 / (calculate_scenario 85 100 5 7 0).rate) :=
  (scenario_usd_division 85 100 5 7 0).2 (by norm_num [calculate_scenario])

/-- C6 (counterexample): a negative spot rate does not make the conversion
fail: at rate -1 (which is at most 0) the code happily returns -85 USD for 85
INR; there is no InvalidRateError in the source. -/
theorem conversion_negative_rate_cex :
    (-1 : ℚ) ≤ 0 ∧ investment_usd 85 (-1) = some (-85) := by
  refine ⟨by norm_num, ?_⟩
  norm_num [investment_usd]

/-- C6 (amended): the conversion performs no rate validation: for every
nonzero spot rate, positive or negative, it returns `amountInr / spotRate`;
it fails (Python ZeroDivisionError) exactly when the rate is 0. -/
theorem conversion_no_validation (amount rate : ℚ) (h : rate ≠ 0) :
    investment_usd amount rate = some (amount / rate) ∧
    investment_usd amount 0 = none := by
  simp [investment_usd, h]

/-- C6 witness: the amended statement at amount 85 and rate -1. -/
theorem conversion_no_validation_witness :
    investment_usd 85 (-1) = some (85 / (-1)) ∧ investment_usd 85 0 = none :=
  conversion_no_validation 85 (-1) (by norm_num)

/-- C4: with a zero annual hedging-cost rate (the code's realization of the
margin-only cost model) the total hedging cost is 0 and the net return with
hedge is the maturity value minus the margin; and on the end-to-end example
(principal 1000000 INR, tenure 3 years, yield 6.5 annual-simple, spot 85,
lot size 1000, margin per lot 2150, ceiling rounding) the engine yields
interest 195000, maturity 1195000, USD notional 200000/17, 12 lots, margin
25800 and net return with hedge 1169200. -/
theorem margin_only_end_to_end (usd tr m spot : ℚ) (tenure_years : ℕ) :
    total_hedging_cost usd 0 tenure_years spot = 0 ∧
    actual_return_with_hedging tr m (total_hedging_cost usd 0 tenure_years spot)
      = tr - m ∧
    interest_earned 1000000 (13 / 2) 3 .annually = 195000 ∧
    total_return_inr 1000000 (13 / 2) 3 .annually = 1195000 ∧
    investment_usd 1000000 85 = some (200000 / 17) ∧
    num_lots (200000 / 17) = 12 ∧
    total_margin_inr (200000 / 17) 2150 = 25800 ∧
    actual_return_with_hedging 1195000 25800 (total_hedging_cost (200000 / 17) 0 3 85)
      = 1169200 := by
  have hcost : ∀ u r : ℚ, ∀ ty : ℕ, total_hedging_cost u 0 ty r = 0 := by
    intro u r ty
    simp [total_hedging_cost]
  have hlots : num_lots (200000 / 17) = 12 := by
    rw [num_lots, USDINR_LOT_SIZE, Int.ceil_eq_iff]
    norm_num
  refine ⟨hcost usd spot tenure_years, ?_, ?_, ?_, ?_, hlots, ?_, ?_⟩
  · rw [hcost usd spot tenure_years]
    simp [actual_return_with_hedging]
  · norm_num [interest_earned]
  · norm_num [total_return_inr, interest_earned]
  · norm_num [investment_usd]
  · rw [total_margin_inr, hlots]
    norm_num
  · rw [hcost (200000 / 17) 85 3]
    norm_num [actual_return_with_hedging]

/-- C5: under the ceiling rounding policy, for every non-negative USD notional
and positive lot size, the lots required are the integer ceiling of
notional over lot size, hence at least 0; the source's `num_lots` is exactly
this sizer at the source's fixed lot size of 1000; and notional 1100 with lot
size 1000 gives 2 lots, 2000 USD covered and 0 USD uncovered. -/
theorem hedge_sizer_ceiling (usd lot : ℚ) (husd : 0 ≤ usd) (hlot : 0 < lot) :
    (hedgeSizer_size_ceiling usd lot).lotsRequired = ⌈usd / lot⌉ ∧
    0 ≤ (hedgeSizer_size_ceiling usd lot).lotsRequired ∧
    num_lots usd = (hedgeSizer_size_ceiling usd USDINR_LOT_SIZE).lotsRequired ∧
    hedgeSizer_size_ceiling 1100 1000 = ⟨2, 2000, 0⟩ := by
  have h2 : ⌈(1100 : ℚ) / 1000⌉ = 2 := by
    rw [Int.ceil_eq_iff]
    norm_num
  refine ⟨rfl, ?_, rfl, ?_⟩
  · exact Int.ceil_nonneg (div_nonneg husd hlot.le)
  · simp only [hedgeSizer_size_ceiling, h2]
    norm_num

/-- C5 witness: the sizing property applied at notional 1100 and lot size
1000. -/
theorem hedge_sizer_ceiling_witness :
    hedgeSizer_size_ceiling 1100 1000 = ⟨2, 2000, 0⟩ :=
  (hedge_sizer_ceiling 1100 1000 (by norm_num) (by norm_num)).2.2.2

end BondsHedging
